import Mathlib

/-!
Verification development for the posture-monitoring pipeline of the
Smart-Office-Chair repository.

The definitions below are shallow embeddings of the Python sources:
* `src/config.py` — posture label lists and default settings;
* `src/routes/api.py` — the `warning_tracker` state and the warning-update
  step of the `predict` route (lines 106-150);
* `src/models/fusion_logic.py` — the `FusionLogic` class and its four
  prediction modes;
* `src/models/camera_model.py` — the keypoint feature extraction;
* `src/utils/camera_manager.py` — the `CameraManager` state machine.

Machine floats are modelled by `ℚ`; opaque pre-trained classifiers
(pickled random forests, the YOLO pose pipeline, `np.sqrt`, `np.arccos`)
are modelled as function parameters, since the Python code treats them as
black boxes.  Python exceptions are modelled by `Except String`.
-/

namespace SmartChair

/-- From `src/config.py` lines 87-97: the closed set of posture labels. -/
def POSTURE_LABELS : List String :=
  ["Correct_posture", "Leaning_backward", "Leaning_forward", "Leaning_left",
   "Leaning_right", "Left_leg_crossed", "Right_leg_crossed",
   "Sitting_at_front_edge", "Upper_body_hunched"]

/-- From `src/config.py` lines 100-109: the bad-posture subset. -/
def BAD_POSTURES : List String :=
  ["Leaning_backward", "Leaning_forward", "Leaning_left", "Leaning_right",
   "Left_leg_crossed", "Right_leg_crossed", "Sitting_at_front_edge",
   "Upper_body_hunched"]

/-- From `src/config.py` line 68: `WARNING_THRESHOLD = 3`. -/
def WARNING_THRESHOLD : Nat := 3

/-- From `src/models/fusion_logic.py` lines 270-280:
`FusionLogic.is_bad_posture`, a pure membership test against
`config.BAD_POSTURES`. -/
def is_bad_posture (label : String) : Bool :=
  BAD_POSTURES.contains label

/-- The `warning_tracker` dict of `src/routes/api.py` lines 27-33.
`warned_postures` is a Python `set`; it is modelled as a duplicate-free
list (`set.add` = `List.insert`, `set.discard` = `List.erase`). -/
structure WarningTracker where
  last_posture : Option String
  consecutive_count : Nat
  warning_threshold : Nat
  warned_postures : List String
  deriving Repr, DecidableEq

/-- The initial `warning_tracker` value of `src/routes/api.py` lines 28-33:
no last posture, zero count, literal threshold 5, empty warned set. -/
def initTracker : WarningTracker :=
  { last_posture := none, consecutive_count := 0,
    warning_threshold := 5, warned_postures := [] }

/-- Python truthiness of `warning_tracker['last_posture']` in the condition
on line 112 of `src/routes/api.py`: `None` and the empty string are falsy. -/
def lastTruthy : Option String → Bool
  | none => false
  | some s => !(s == "")

/-- The tracker transition of the `predict` route,
`src/routes/api.py` lines 106-128: on a posture change the interrupted
posture is discarded from the warned set and the count is reset to 1 (bad)
or 0 (good); on the same bad posture the count is incremented; on the same
good posture the count is set to 0. -/
def warningTransition (st : WarningTracker) (label : String) : WarningTracker :=
  if st.last_posture ≠ some label then
    let warned :=
      if lastTruthy st.last_posture && st.warned_postures.contains
          (st.last_posture.getD "") then
        st.warned_postures.erase (st.last_posture.getD "")
      else st.warned_postures
    { st with last_posture := some label,
              consecutive_count := if is_bad_posture label then 1 else 0,
              warned_postures := warned }
  else
    if is_bad_posture label then
      { st with consecutive_count := st.consecutive_count + 1 }
    else { st with consecutive_count := 0 }

/-- The warning decision of the `predict` route,
`src/routes/api.py` lines 130-150, computed after the transition:
a good posture never warns; a bad posture already in the warned set warns
immediately; otherwise it warns (and is added to the warned set) exactly
when the consecutive count has reached the threshold. -/
def warningDecision (st1 : WarningTracker) (label : String) : WarningTracker × Bool :=
  if is_bad_posture label then
    if st1.warned_postures.contains label then (st1, true)
    else if st1.warning_threshold ≤ st1.consecutive_count then
      ({ st1 with warned_postures := st1.warned_postures.insert label }, true)
    else (st1, false)
  else (st1, false)

/-- The full warning-update step of the `predict` route,
`src/routes/api.py` lines 104-150: the transition on the tracker state
followed by the warning decision.  Returns the updated tracker and the
`warning_flag` sent in the response. -/
def warningStep (st : WarningTracker) (label : String) : WarningTracker × Bool :=
  warningDecision (warningTransition st label) label

/-- The warning flags produced by feeding a sequence of labels through the
warning-update step. -/
def runWarnings : WarningTracker → List String → List Bool
  | _, [] => []
  | st, l :: ls =>
    let p := warningStep st l
    p.2 :: runWarnings p.1 ls

/-- The tracker state after feeding a sequence of labels through the
warning-update step. -/
def runTracker (st : WarningTracker) (ls : List String) : WarningTracker :=
  ls.foldl (fun s l => (warningStep s l).1) st

theorem is_bad_posture_ne_empty {B : String} (hB : is_bad_posture B = true) :
    B ≠ "" := by
  intro h
  subst h
  exact absurd hB (by decide)

/-- C1: from the initial warning state with threshold 5, for every
bad-posture label `B` and good label `G`: the sequence `[B,B,B,B,B]`
yields warnings `[F,F,F,F,T]`; a 6th consecutive `B` also yields `T`; and
`[B,B,B,B,B,G,B]` yields `[F,F,F,F,T,F,F]`. -/
theorem warning_hysteresis_scenarios (B G : String)
    (hB : is_bad_posture B = true) (hG : is_bad_posture G = false) :
    runWarnings initTracker [B, B, B, B, B] = [false, false, false, false, true] ∧
    runWarnings initTracker [B, B, B, B, B, B]
      = [false, false, false, false, true, true] ∧
    runWarnings initTracker [B, B, B, B, B, G, B]
      = [false, false, false, false, true, false, false] := by
  have hBe : B ≠ "" := is_bad_posture_ne_empty hB
  have hBG : B ≠ G := fun h => by rw [h, hG] at hB; exact Bool.noConfusion hB
  refine ⟨?_, ?_, ?_⟩ <;>
    simp [runWarnings, warningStep, warningTransition, warningDecision,
      initTracker, lastTruthy, hB, hG, hBe, hBG, Ne.symm hBG,
      List.insert, List.erase]

/-- Witness for C1 at `B = "Leaning_forward"`, `G = "Correct_posture"`. -/
theorem warning_hysteresis_scenarios_witness :
    runWarnings initTracker
        ["Leaning_forward", "Leaning_forward", "Leaning_forward",
         "Leaning_forward", "Leaning_forward", "Correct_posture",
         "Leaning_forward"]
      = [false, false, false, false, true, false, false] :=
  (warning_hysteresis_scenarios "Leaning_forward" "Correct_posture"
    (by decide) (by decide)).2.2

/-- The invariant of the warning tracker: the count is positive on a bad
streak and zero otherwise, and the warned set is either empty or the
singleton of the current (bad) label whose streak has reached the
threshold. -/
def TrackerInv (st : WarningTracker) : Prop :=
  (∀ l, st.last_posture = some l →
      if is_bad_posture l = true then 1 ≤ st.consecutive_count
      else st.consecutive_count = 0) ∧
  (st.last_posture = none → st.consecutive_count = 0) ∧
  (st.warned_postures = [] ∨
    ∃ l, st.last_posture = some l ∧ st.warned_postures = [l] ∧
      is_bad_posture l = true ∧
      st.warning_threshold ≤ st.consecutive_count)

theorem transition_last (st : WarningTracker) (L : String) :
    (warningTransition st L).last_posture = some L := by
  by_cases hc : st.last_posture = some L
  · unfold warningTransition
    rw [if_neg (not_not_intro hc)]
    split <;> exact hc
  · unfold warningTransition
    rw [if_pos hc]

theorem transition_threshold (st : WarningTracker) (L : String) :
    (warningTransition st L).warning_threshold = st.warning_threshold := by
  by_cases hc : st.last_posture = some L
  · unfold warningTransition
    rw [if_neg (not_not_intro hc)]
    split <;> rfl
  · unfold warningTransition
    rw [if_pos hc]

theorem transition_count_change (st : WarningTracker) (L : String)
    (hc : ¬ st.last_posture = some L) :
    (warningTransition st L).consecutive_count =
      if is_bad_posture L then 1 else 0 := by
  unfold warningTransition
  rw [if_pos hc]

theorem transition_count_same_bad (st : WarningTracker) (L : String)
    (hc : st.last_posture = some L) (hb : is_bad_posture L = true) :
    (warningTransition st L).consecutive_count = st.consecutive_count + 1 := by
  unfold warningTransition
  rw [if_neg (not_not_intro hc), if_pos hb]

theorem transition_count_same_good (st : WarningTracker) (L : String)
    (hc : st.last_posture = some L) (hb : is_bad_posture L = false) :
    (warningTransition st L).consecutive_count = 0 := by
  unfold warningTransition
  rw [if_neg (not_not_intro hc), if_neg (by simp [hb])]

theorem transition_warned_same (st : WarningTracker) (L : String)
    (hc : st.last_posture = some L) :
    (warningTransition st L).warned_postures = st.warned_postures := by
  unfold warningTransition
  rw [if_neg (not_not_intro hc)]
  split <;> rfl

theorem transition_warned_change (st : WarningTracker) (L : String)
    (hw : st.warned_postures = [] ∨
      ∃ l, st.last_posture = some l ∧ st.warned_postures = [l] ∧
        is_bad_posture l = true ∧
        st.warning_threshold ≤ st.consecutive_count)
    (hc : ¬ st.last_posture = some L) :
    (warningTransition st L).warned_postures = [] := by
  unfold warningTransition
  rw [if_pos hc]
  rcases hw with hw | ⟨l, hl, hwl, hbl, -⟩
  · simp [hw]
  · have hle : l ≠ "" := is_bad_posture_ne_empty hbl
    simp [hl, hwl, lastTruthy, hle, List.erase_cons]

theorem decision_same_good (st1 : WarningTracker) (L : String)
    (hb : is_bad_posture L = false) :
    warningDecision st1 L = (st1, false) := by
  unfold warningDecision
  rw [if_neg (by simp [hb])]

theorem decision_warned (st1 : WarningTracker) (L : String)
    (hb : is_bad_posture L = true)
    (hcont : st1.warned_postures.contains L = true) :
    warningDecision st1 L = (st1, true) := by
  unfold warningDecision
  rw [if_pos hb, if_pos hcont]

theorem decision_cross (st1 : WarningTracker) (L : String)
    (hb : is_bad_posture L = true)
    (hcont : st1.warned_postures.contains L = false)
    (hth : st1.warning_threshold ≤ st1.consecutive_count) :
    warningDecision st1 L =
      ({ st1 with warned_postures := st1.warned_postures.insert L }, true) := by
  unfold warningDecision
  rw [if_pos hb, if_neg (by rw [hcont]; exact Bool.false_ne_true), if_pos hth]

theorem decision_below (st1 : WarningTracker) (L : String)
    (hb : is_bad_posture L = true)
    (hcont : st1.warned_postures.contains L = false)
    (hth : ¬ st1.warning_threshold ≤ st1.consecutive_count) :
    warningDecision st1 L = (st1, false) := by
  unfold warningDecision
  rw [if_pos hb, if_neg (by rw [hcont]; exact Bool.false_ne_true), if_neg hth]

theorem warningStep_inv (st : WarningTracker) (L : String)
    (h : TrackerInv st) : TrackerInv (warningStep st L).1 := by
  obtain ⟨h1, h2, h3⟩ := h
  unfold warningStep
  by_cases hc : st.last_posture = some L
  · -- same-label branch of the transition
    have hlast := transition_last st L
    have hth := transition_threshold st L
    have hwarn := transition_warned_same st L hc
    by_cases hb : is_bad_posture L = true
    · have hcnt := transition_count_same_bad st L hc hb
      have hge : 1 ≤ st.consecutive_count := by
        have := h1 L hc
        rwa [if_pos hb] at this
      rcases h3 with hw | ⟨l, hl, hwl, hbl, hthl⟩
      · -- warned set empty: either the threshold is crossed or not
        have hcont : (warningTransition st L).warned_postures.contains L = false := by
          rw [hwarn, hw]; rfl
        by_cases hcross :
            (warningTransition st L).warning_threshold ≤
              (warningTransition st L).consecutive_count
        · rw [decision_cross _ _ hb hcont hcross]
          refine ⟨?_, ?_, ?_⟩
          · intro m hm
            rw [hlast] at hm
            cases hm
            rw [if_pos hb, hcnt]
            omega
          · intro hm; rw [hlast] at hm; cases hm
          · refine Or.inr ⟨L, hlast, ?_, hb, hcross⟩
            rw [hwarn, hw]
            rfl
        · rw [decision_below _ _ hb hcont hcross]
          refine ⟨?_, ?_, Or.inl (by rw [hwarn, hw])⟩
          · intro m hm
            rw [hlast] at hm
            cases hm
            rw [if_pos hb, hcnt]
            omega
          · intro hm; rw [hlast] at hm; cases hm
      · -- warned set is the singleton of the current label
        have hlL : L = l := by
          rw [hc] at hl
          exact Option.some.inj hl
        rw [← hlL] at hwl hbl
        have hcont : (warningTransition st L).warned_postures.contains L = true := by
          rw [hwarn, hwl]
          simp
        rw [decision_warned _ _ hb hcont]
        refine ⟨?_, ?_, ?_⟩
        · intro m hm
          rw [hlast] at hm
          cases hm
          rw [if_pos hb, hcnt]
          omega
        · intro hm; rw [hlast] at hm; cases hm
        · refine Or.inr ⟨L, hlast, by rw [hwarn, hwl], hbl, ?_⟩
          rw [hth, hcnt]
          omega
    · -- same good label
      have hb' : is_bad_posture L = false := by
        cases hbe : is_bad_posture L
        · rfl
        · exact absurd hbe hb
      have hcnt := transition_count_same_good st L hc hb'
      rw [decision_same_good _ _ hb']
      refine ⟨?_, ?_, ?_⟩
      · intro m hm
        rw [hlast] at hm
        cases hm
        rw [if_neg (by simp [hb']), hcnt]
      · intro hm; rw [hlast] at hm; cases hm
      · rcases h3 with hw | ⟨l, hl, hwl, hbl, hthl⟩
        · exact Or.inl (by rw [hwarn, hw])
        · exfalso
          rw [hc] at hl
          cases hl
          rw [hbl] at hb'
          exact Bool.noConfusion hb'
  · -- posture-change branch of the transition
    have hlast := transition_last st L
    have hth := transition_threshold st L
    have hwarn := transition_warned_change st L h3 hc
    have hcnt := transition_count_change st L hc
    by_cases hb : is_bad_posture L = true
    · have hcnt1 : (warningTransition st L).consecutive_count = 1 := by
        rw [hcnt, if_pos hb]
      have hcont : (warningTransition st L).warned_postures.contains L = false := by
        rw [hwarn]; rfl
      by_cases hcross :
          (warningTransition st L).warning_threshold ≤
            (warningTransition st L).consecutive_count
      · rw [decision_cross _ _ hb hcont hcross]
        refine ⟨?_, ?_, ?_⟩
        · intro m hm
          rw [hlast] at hm
          cases hm
          rw [if_pos hb, hcnt1]
        · intro hm; rw [hlast] at hm; cases hm
        · exact Or.inr ⟨L, hlast, by rw [hwarn]; rfl, hb, hcross⟩
      · rw [decision_below _ _ hb hcont hcross]
        refine ⟨?_, ?_, Or.inl hwarn⟩
        · intro m hm
          rw [hlast] at hm
          cases hm
          rw [if_pos hb, hcnt1]
        · intro hm; rw [hlast] at hm; cases hm
    · have hb' : is_bad_posture L = false := by
        cases hbe : is_bad_posture L
        · rfl
        · exact absurd hbe hb
      rw [decision_same_good _ _ hb']
      refine ⟨?_, ?_, Or.inl hwarn⟩
      · intro m hm
        rw [hlast] at hm
        cases hm
        rw [if_neg (by simp [hb']), hcnt, if_neg (by simp [hb'])]
      · intro hm; rw [hlast] at hm; cases hm

theorem runTracker_inv_aux (ls : List String) :
    ∀ st : WarningTracker, TrackerInv st → TrackerInv (runTracker st ls) := by
  induction ls with
  | nil => intro st h; exact h
  | cons l ls ih =>
    intro st h
    exact ih _ (warningStep_inv st l h)

theorem initTracker_inv : TrackerInv initTracker := by
  refine ⟨?_, fun _ => rfl, Or.inl rfl⟩
  intro l h
  exact Option.noConfusion h

theorem runTracker_inv (ls : List String) :
    TrackerInv (runTracker initTracker ls) :=
  runTracker_inv_aux ls initTracker initTracker_inv

/-- C2: along every label sequence from the initial warning state, the
consecutive count is reset to 0 or 1 exactly on the steps where the last
label changes (otherwise it is incremented on a bad label and unchanged on
a good one), and the warned set never contains the current last label
unless that label's current streak has reached the warning threshold. -/
theorem warning_tracker_invariant (ls : List String) (L : String) :
    ((warningStep (runTracker initTracker ls) L).1.consecutive_count =
      if (runTracker initTracker ls).last_posture = some L then
        (if is_bad_posture L = true then
          (runTracker initTracker ls).consecutive_count + 1
         else (runTracker initTracker ls).consecutive_count)
      else if is_bad_posture L = true then 1 else 0) ∧
    (∀ m, (runTracker initTracker ls).last_posture = some m →
      (runTracker initTracker ls).warned_postures.contains m = true →
      is_bad_posture m = true ∧
      (runTracker initTracker ls).warning_threshold ≤
        (runTracker initTracker ls).consecutive_count) := by
  obtain ⟨h1, h2, h3⟩ := runTracker_inv ls
  set st := runTracker initTracker ls with hst
  constructor
  · -- the count after a full step equals the count after the transition
    have hdec : (warningStep st L).1.consecutive_count =
        (warningTransition st L).consecutive_count := by
      unfold warningStep warningDecision
      split
      · split
        · rfl
        · split <;> rfl
      · rfl
    rw [hdec]
    by_cases hc : st.last_posture = some L
    · rw [if_pos hc]
      by_cases hb : is_bad_posture L = true
      · rw [if_pos hb, transition_count_same_bad st L hc hb]
      · have hb' : is_bad_posture L = false := by
          cases hbe : is_bad_posture L
          · rfl
          · exact absurd hbe hb
        rw [if_neg hb, transition_count_same_good st L hc hb']
        have := h1 L hc
        rw [if_neg hb] at this
        omega
    · rw [if_neg hc, transition_count_change st L hc]
  · intro m hm hcont
    rcases h3 with hw | ⟨l, hl, hwl, hbl, hthl⟩
    · rw [hw] at hcont
      simp at hcont
    · have hml : m = l := by
        rw [hwl] at hcont
        simpa using hcont
      subst hml
      exact ⟨hbl, hthl⟩

/-- Witness for C2 at the sequence of five `"Leaning_forward"` labels. -/
theorem warning_tracker_invariant_witness :
    is_bad_posture "Leaning_forward" = true ∧
    (runTracker initTracker
        ["Leaning_forward", "Leaning_forward", "Leaning_forward",
         "Leaning_forward", "Leaning_forward"]).warning_threshold ≤
      (runTracker initTracker
        ["Leaning_forward", "Leaning_forward", "Leaning_forward",
         "Leaning_forward", "Leaning_forward"]).consecutive_count :=
  (warning_tracker_invariant
      ["Leaning_forward", "Leaning_forward", "Leaning_forward",
       "Leaning_forward", "Leaning_forward"] "Leaning_forward").2
    "Leaning_forward" (by decide) (by decide)

theorem step_threshold (st : WarningTracker) (L : String) :
    (warningStep st L).1.warning_threshold = st.warning_threshold := by
  have h := transition_threshold st L
  unfold warningStep warningDecision
  split
  · split
    · exact h
    · split
      · exact h
      · exact h
  · exact h

theorem runTracker_threshold (ls : List String) :
    ∀ st : WarningTracker,
      (runTracker st ls).warning_threshold = st.warning_threshold := by
  induction ls with
  | nil => intro st; rfl
  | cons l ls ih =>
    intro st
    show (runTracker (warningStep st l).1 ls).warning_threshold = _
    rw [ih, step_threshold]

/-- C6: the warning decision of the `predict` route compares the
consecutive count against the literal `5` stored in `warning_tracker`,
never against the externally configurable `config.WARNING_THRESHOLD`
(which is `3`): three consecutive bad postures produce no warning even
though the configured threshold is 3, and the threshold field the decision
reads stays `5` along every label sequence. -/
theorem warning_threshold_ignores_config :
    WARNING_THRESHOLD = 3 ∧
    initTracker.warning_threshold = 5 ∧
    runWarnings initTracker
        ["Leaning_forward", "Leaning_forward", "Leaning_forward"]
      = [false, false, false] ∧
    (∀ ls : List String, (runTracker initTracker ls).warning_threshold = 5) := by
  refine ⟨rfl, rfl, by decide, fun ls => runTracker_threshold ls initTracker⟩

/-! ## Fusion arbiter: `src/models/fusion_logic.py`

The two classifier adapters wrap opaque pre-trained models
(`src/models/sensor_model.py`, `src/models/camera_model.py`); their
pickled predictors are modelled as function fields, while the input
validation around them is translated from the source.  The frame type is
a type parameter `F`.  A probability distribution (a Python dict) is an
association list in insertion order. -/

/-- Lookup in an association list with a default, Python `dict.get`. -/
def dictGet (d : List (String × ℚ)) (k : String) (dflt : ℚ) : ℚ :=
  match d.find? (fun p => p.1 == k) with
  | some p => p.2
  | none => dflt

/-- `dict.get(label, 0.0)` as used on lines 215-216 of
`src/models/fusion_logic.py`. -/
def dictGet0 (d : List (String × ℚ)) (k : String) : ℚ :=
  dictGet d k 0

/-- The sensor adapter, `src/models/sensor_model.py`.  `clf` and `probs`
are the opaque pickled random-forest predictor (`predict`+max-probability
and `predict_proba` zipped with the encoder classes). -/
structure SensorModel where
  is_loaded : Bool
  clf : List ℚ → String × ℚ
  probs : List ℚ → List (String × ℚ)

/-- `SensorModel.predict`, `src/models/sensor_model.py` lines 58-95:
rejects an unloaded model and a vector whose length is not 7, otherwise
returns the opaque classifier's label and confidence. -/
def SensorModel.predict (m : SensorModel) (sensor_values : List ℚ) :
    Except String (String × ℚ) :=
  if m.is_loaded = false then
    .error "Model is not loaded. Cannot make predictions."
  else if sensor_values.length ≠ 7 then
    .error "Expected 7 sensor values"
  else .ok (m.clf sensor_values)

/-- `SensorModel.get_all_probabilities`,
`src/models/sensor_model.py` lines 97-127. -/
def SensorModel.get_all_probabilities (m : SensorModel)
    (sensor_values : List ℚ) : Except String (List (String × ℚ)) :=
  if m.is_loaded = false then .error "Model is not loaded."
  else if sensor_values.length ≠ 7 then
    .error "Expected 7 sensor values"
  else .ok (m.probs sensor_values)

/-- The camera adapter, `src/models/camera_model.py`.  `cpredict` and
`cprobs` are the opaque YOLO-plus-random-forest pipelines of
`CameraModel.predict` and `CameraModel.get_all_probabilities`; each may
fail per call (no person detected, malformed keypoints, unreadable
frame).  They take an `Option F` because `fusion_logic.py` passes its
possibly-`None` frame argument straight through. -/
structure CameraModel (F : Type) where
  is_loaded : Bool
  cpredict : Option F → Except String (String × ℚ)
  cprobs : Option F → Except String (List (String × ℚ))

/-- `CameraModel.predict`, `src/models/camera_model.py` lines 170-218:
rejects an unloaded model, otherwise runs the opaque pipeline. -/
def CameraModel.predict (m : CameraModel F) (frame : Option F) :
    Except String (String × ℚ) :=
  if m.is_loaded = false then
    .error "Model is not loaded. Cannot make predictions."
  else m.cpredict frame

/-- `CameraModel.get_all_probabilities`,
`src/models/camera_model.py` lines 220-256. -/
def CameraModel.get_all_probabilities (m : CameraModel F) (frame : Option F) :
    Except String (List (String × ℚ)) :=
  if m.is_loaded = false then .error "Model is not loaded."
  else m.cprobs frame

/-- The metadata dict built by the prediction methods of
`src/models/fusion_logic.py`; absent keys are `none`. -/
structure Metadata where
  mode : String
  sensor_confidence : Option ℚ := none
  sensor_label : Option String := none
  camera_used : Option Bool := none
  camera_confidence : Option ℚ := none
  camera_label : Option String := none
  camera_error : Option String := none
  fused_label : Option String := none
  fused_confidence : Option ℚ := none
  weights_sensor : Option ℚ := none
  weights_camera : Option ℚ := none
  deriving DecidableEq

/-- The `FusionLogic` class state, `src/models/fusion_logic.py`
lines 16-27: the two adapters plus the current configuration. -/
structure FusionLogic (F : Type) where
  sensor_model : SensorModel
  camera_model : CameraModel F
  mode : String
  auto_threshold : ℚ
  fusion_weights : List (String × ℚ)

/-- `FusionLogic.predict_sensor_only`,
`src/models/fusion_logic.py` lines 48-73. -/
def predict_sensor_only (fl : FusionLogic F) (sensor_values : List ℚ) :
    Except String (String × ℚ × Metadata) :=
  match fl.sensor_model.predict sensor_values with
  | .error e => .error e
  | .ok (label, confidence) =>
    .ok (label, confidence,
      { mode := "sensor_only", sensor_confidence := some confidence,
        camera_used := some false })

/-- `FusionLogic.predict_camera_only`,
`src/models/fusion_logic.py` lines 75-104: raises when no frame is given,
and re-raises any camera-adapter failure. -/
def predict_camera_only (fl : FusionLogic F) (camera_frame : Option F) :
    Except String (String × ℚ × Metadata) :=
  match camera_frame with
  | none => .error "Camera frame is required for camera_only mode"
  | some _ =>
    match fl.camera_model.predict camera_frame with
    | .error e => .error e
    | .ok (label, confidence) =>
      .ok (label, confidence,
        { mode := "camera_only", camera_confidence := some confidence,
          camera_used := some true })

/-- `FusionLogic.predict_auto`, `src/models/fusion_logic.py`
lines 106-158: sensor first; camera only when the sensor confidence is
below the threshold and a frame is present; camera failure falls back to
the sensor result. -/
def predict_auto (fl : FusionLogic F) (sensor_values : List ℚ)
    (camera_frame : Option F) : Except String (String × ℚ × Metadata) :=
  match fl.sensor_model.predict sensor_values with
  | .error e => .error e
  | .ok (sensor_label, sensor_confidence) =>
    if fl.auto_threshold ≤ sensor_confidence then
      .ok (sensor_label, sensor_confidence,
        { mode := "auto", sensor_confidence := some sensor_confidence,
          sensor_label := some sensor_label, camera_used := some false })
    else
      match camera_frame with
      | none =>
        .ok (sensor_label, sensor_confidence,
          { mode := "auto", sensor_confidence := some sensor_confidence,
            sensor_label := some sensor_label, camera_used := some false })
      | some _ =>
        match fl.camera_model.predict camera_frame with
        | .ok (camera_label, camera_confidence) =>
          .ok (camera_label, camera_confidence,
            { mode := "auto", sensor_confidence := some sensor_confidence,
              sensor_label := some sensor_label, camera_used := some true,
              camera_confidence := some camera_confidence,
              camera_label := some camera_label })
        | .error e =>
          .ok (sensor_label, sensor_confidence,
            { mode := "auto", sensor_confidence := some sensor_confidence,
              sensor_label := some sensor_label, camera_used := some false,
              camera_error := some e })

/-- Python `max(fused_probs, key=fused_probs.get)`: the first key of
maximal value in iteration order; `none` on an empty dict (Python raises
`ValueError` there). -/
def maxByVal : List (String × ℚ) → Option (String × ℚ)
  | [] => none
  | p :: ps => some (ps.foldl (fun best q => if best.2 < q.2 then q else best) p)

/-- `FusionLogic.predict_fusion`, `src/models/fusion_logic.py`
lines 160-235: both adapters run; a camera `predict` failure degrades to
the sensor result, but a failure of either `get_all_probabilities` call
re-raises (it is outside the inner `try`).  The union of the two label
sets is Python's `set(...) | set(...)`, whose iteration order is
hash-dependent; it is embedded left-biased (`List.dedup` keeps first
occurrences), and every property proved about the winner is independent
of that order. -/
def predict_fusion (fl : FusionLogic F) (sensor_values : List ℚ)
    (camera_frame : Option F) : Except String (String × ℚ × Metadata) :=
  match fl.sensor_model.predict sensor_values with
  | .error e => .error e
  | .ok (sensor_label, sensor_confidence) =>
    match fl.camera_model.predict camera_frame with
    | .error e =>
      .ok (sensor_label, sensor_confidence,
        { mode := "fusion", sensor_label := some sensor_label,
          sensor_confidence := some sensor_confidence,
          camera_used := some false, camera_error := some e })
    | .ok (camera_label, camera_confidence) =>
      match fl.sensor_model.get_all_probabilities sensor_values with
      | .error e => .error e
      | .ok sensor_probs =>
        match fl.camera_model.get_all_probabilities camera_frame with
        | .error e => .error e
        | .ok camera_probs =>
          let sensor_weight := dictGet fl.fusion_weights "sensor" (2/5)
          let camera_weight := dictGet fl.fusion_weights "camera" (3/5)
          let all_labels :=
            (sensor_probs.map Prod.fst ++ camera_probs.map Prod.fst).dedup
          let fused_probs := all_labels.map (fun l =>
            (l, sensor_weight * dictGet0 sensor_probs l
                  + camera_weight * dictGet0 camera_probs l))
          match maxByVal fused_probs with
          | none => .error "max() arg is an empty sequence"
          | some (final_label, final_confidence) =>
            .ok (final_label, final_confidence,
              { mode := "fusion", sensor_label := some sensor_label,
                sensor_confidence := some sensor_confidence,
                camera_used := some true,
                camera_label := some camera_label,
                camera_confidence := some camera_confidence,
                fused_label := some final_label,
                fused_confidence := some final_confidence,
                weights_sensor := some sensor_weight,
                weights_camera := some camera_weight })

/-- `FusionLogic.predict`, `src/models/fusion_logic.py` lines 237-268:
mode dispatch, with the sensor-only fallback when `camera_only` or
`fusion` receives no frame, and for any unknown mode. -/
def FusionLogic.predict (fl : FusionLogic F) (sensor_values : List ℚ)
    (camera_frame : Option F) : Except String (String × ℚ × Metadata) :=
  if fl.mode = "sensor_only" then predict_sensor_only fl sensor_values
  else if fl.mode = "camera_only" then
    match camera_frame with
    | none => predict_sensor_only fl sensor_values
    | some _ => predict_camera_only fl camera_frame
  else if fl.mode = "auto" then predict_auto fl sensor_values camera_frame
  else if fl.mode = "fusion" then
    match camera_frame with
    | none => predict_sensor_only fl sensor_values
    | some _ => predict_fusion fl sensor_values camera_frame
  else predict_sensor_only fl sensor_values

theorem dispatch_sensor_only (fl : FusionLogic F) (hm : fl.mode = "sensor_only")
    (sv : List ℚ) (frame : Option F) :
    fl.predict sv frame = predict_sensor_only fl sv := by
  unfold FusionLogic.predict
  rw [if_pos hm]

theorem dispatch_camera_only_none (fl : FusionLogic F)
    (hm : fl.mode = "camera_only") (sv : List ℚ) :
    fl.predict sv none = predict_sensor_only fl sv := by
  unfold FusionLogic.predict
  rw [if_neg (by rw [hm]; decide), if_pos hm]

theorem dispatch_camera_only_some (fl : FusionLogic F)
    (hm : fl.mode = "camera_only") (sv : List ℚ) (f : F) :
    fl.predict sv (some f) = predict_camera_only fl (some f) := by
  unfold FusionLogic.predict
  rw [if_neg (by rw [hm]; decide), if_pos hm]

theorem dispatch_auto (fl : FusionLogic F) (hm : fl.mode = "auto")
    (sv : List ℚ) (frame : Option F) :
    fl.predict sv frame = predict_auto fl sv frame := by
  unfold FusionLogic.predict
  rw [if_neg (by rw [hm]; decide), if_neg (by rw [hm]; decide), if_pos hm]

theorem dispatch_fusion_none (fl : FusionLogic F) (hm : fl.mode = "fusion")
    (sv : List ℚ) :
    fl.predict sv none = predict_sensor_only fl sv := by
  unfold FusionLogic.predict
  rw [if_neg (by rw [hm]; decide), if_neg (by rw [hm]; decide),
    if_neg (by rw [hm]; decide), if_pos hm]

theorem dispatch_fusion_some (fl : FusionLogic F) (hm : fl.mode = "fusion")
    (sv : List ℚ) (f : F) :
    fl.predict sv (some f) = predict_fusion fl sv (some f) := by
  unfold FusionLogic.predict
  rw [if_neg (by rw [hm]; decide), if_neg (by rw [hm]; decide),
    if_neg (by rw [hm]; decide), if_pos hm]

theorem dispatch_unknown (fl : FusionLogic F)
    (h1 : fl.mode ≠ "sensor_only") (h2 : fl.mode ≠ "camera_only")
    (h3 : fl.mode ≠ "auto") (h4 : fl.mode ≠ "fusion")
    (sv : List ℚ) (frame : Option F) :
    fl.predict sv frame = predict_sensor_only fl sv := by
  unfold FusionLogic.predict
  rw [if_neg h1, if_neg h2, if_neg h3, if_neg h4]

theorem predict_auto_high (fl : FusionLogic F) (sv : List ℚ)
    (frame : Option F) (l : String) (c : ℚ)
    (hs : fl.sensor_model.predict sv = .ok (l, c))
    (hth : fl.auto_threshold ≤ c) :
    predict_auto fl sv frame
      = .ok (l, c,
          { mode := "auto", sensor_confidence := some c,
            sensor_label := some l, camera_used := some false }) := by
  unfold predict_auto
  rw [hs]
  simp only [hth, if_pos]

theorem predict_auto_low_noframe (fl : FusionLogic F) (sv : List ℚ)
    (l : String) (c : ℚ)
    (hs : fl.sensor_model.predict sv = .ok (l, c))
    (hth : ¬ fl.auto_threshold ≤ c) :
    predict_auto fl sv none
      = .ok (l, c,
          { mode := "auto", sensor_confidence := some c,
            sensor_label := some l, camera_used := some false }) := by
  unfold predict_auto
  rw [hs]
  simp [hth]

theorem predict_auto_low_camfail (fl : FusionLogic F) (sv : List ℚ)
    (f : F) (l : String) (c : ℚ) (e : String)
    (hs : fl.sensor_model.predict sv = .ok (l, c))
    (hth : ¬ fl.auto_threshold ≤ c)
    (hc : fl.camera_model.predict (some f) = .error e) :
    predict_auto fl sv (some f)
      = .ok (l, c,
          { mode := "auto", sensor_confidence := some c,
            sensor_label := some l, camera_used := some false,
            camera_error := some e }) := by
  unfold predict_auto
  rw [hs]
  simp [hth, hc]

/-- C3: in auto mode, whenever the sensor adapter succeeds with
confidence at or above `auto_threshold`, `predict` returns exactly the
sensor label and confidence with `camera_used = false`, and the result is
identical under every replacement of the camera adapter (so the camera is
never invoked); when the sensor confidence is below the threshold and no
frame is available, `predict` still returns the low-confidence sensor
result with `camera_used = false` instead of failing. -/
theorem auto_mode_short_circuit (fl : FusionLogic F)
    (sv : List ℚ) (l : String) (c : ℚ)
    (hmode : fl.mode = "auto")
    (hs : fl.sensor_model.predict sv = .ok (l, c)) :
    (fl.auto_threshold ≤ c →
      (∀ frame : Option F,
        fl.predict sv frame
          = .ok (l, c,
              { mode := "auto", sensor_confidence := some c,
                sensor_label := some l, camera_used := some false })) ∧
      (∀ cm : CameraModel F, ∀ frame : Option F,
        ({ fl with camera_model := cm } : FusionLogic F).predict sv frame
          = fl.predict sv frame)) ∧
    (¬ fl.auto_threshold ≤ c →
      fl.predict sv none
        = .ok (l, c,
            { mode := "auto", sensor_confidence := some c,
              sensor_label := some l, camera_used := some false })) := by
  constructor
  · intro hth
    constructor
    · intro frame
      rw [dispatch_auto fl hmode, predict_auto_high fl sv frame l c hs hth]
    · intro cm frame
      rw [dispatch_auto fl hmode,
        dispatch_auto ({ fl with camera_model := cm }) hmode,
        predict_auto_high fl sv frame l c hs hth,
        predict_auto_high ({ fl with camera_model := cm }) sv frame l c hs hth]
  · intro hth
    rw [dispatch_auto fl hmode, predict_auto_low_noframe fl sv l c hs hth]

/-- A sensor adapter instance for witnesses: loaded, constant prediction. -/
def sensorOk : SensorModel :=
  { is_loaded := true,
    clf := fun _ => ("Correct_posture", 9/10),
    probs := fun _ => [("Correct_posture", 9/10), ("Leaning_forward", 1/10)] }

/-- A camera adapter instance for witnesses: loaded, constant success. -/
def cameraOk : CameraModel Unit :=
  { is_loaded := true,
    cpredict := fun _ => .ok ("Leaning_forward", 4/5),
    cprobs := fun _ => .ok [("Leaning_forward", 4/5), ("Correct_posture", 1/5)] }

/-- A camera adapter whose per-call prediction always fails, as when YOLO
finds no person in the frame. -/
def cameraFail : CameraModel Unit :=
  { is_loaded := true,
    cpredict := fun _ => .error "No person detected in frame",
    cprobs := fun _ => .error "No person detected in frame" }

/-- A camera adapter whose prediction succeeds but whose distribution
call fails (the two calls run the YOLO pipeline independently). -/
def cameraProbsFail : CameraModel Unit :=
  { is_loaded := true,
    cpredict := fun _ => .ok ("Leaning_forward", 4/5),
    cprobs := fun _ => .error "No person detected in frame" }

/-- A concrete 7-element sensor vector. -/
def sv7 : List ℚ := [1, 2, 3, 4, 5, 6, 7]

/-- A concrete `FusionLogic` state over trivial frames. -/
def mkFL (mode : String) (cm : CameraModel Unit) : FusionLogic Unit :=
  { sensor_model := sensorOk, camera_model := cm, mode := mode,
    auto_threshold := 7/10,
    fusion_weights := [("sensor", 2/5), ("camera", 3/5)] }

/-- Witness for C3 at a concrete auto-mode state whose sensor confidence
9/10 meets the threshold 7/10. -/
theorem auto_mode_short_circuit_witness :
    (mkFL "auto" cameraFail).predict sv7 (some ())
      = .ok ("Correct_posture", 9/10,
          { mode := "auto", sensor_confidence := some (9/10),
            sensor_label := some "Correct_posture",
            camera_used := some false }) :=
  ((auto_mode_short_circuit (mkFL "auto" cameraFail) sv7 "Correct_posture"
      (9/10) rfl rfl).1 (by norm_num [mkFL])).1 (some ())

theorem maxByVal_foldl_mem (ps : List (String × ℚ)) :
    ∀ best : String × ℚ,
      ps.foldl (fun best q => if best.2 < q.2 then q else best) best = best ∨
      ps.foldl (fun best q => if best.2 < q.2 then q else best) best ∈ ps := by
  induction ps with
  | nil => intro best; exact Or.inl rfl
  | cons r ps ih =>
    intro best
    have hgoal : List.foldl (fun best q => if best.2 < q.2 then q else best)
        best (r :: ps)
        = List.foldl (fun best q => if best.2 < q.2 then q else best)
          (if best.2 < r.2 then r else best) ps := by
      simp only [List.foldl_cons]
    rw [hgoal]
    rcases ih (if best.2 < r.2 then r else best) with h | h
    · rw [h]
      split
      · exact Or.inr (List.mem_cons_self _ _)
      · exact Or.inl rfl
    · exact Or.inr (List.mem_cons_of_mem _ h)

theorem maxByVal_foldl_le (ps : List (String × ℚ)) :
    ∀ best : String × ℚ,
      best.2 ≤ (ps.foldl (fun best q => if best.2 < q.2 then q else best) best).2 ∧
      ∀ r ∈ ps,
        r.2 ≤ (ps.foldl (fun best q => if best.2 < q.2 then q else best) best).2 := by
  induction ps with
  | nil => intro best; exact ⟨le_refl _, fun r hr => absurd hr (List.not_mem_nil r)⟩
  | cons r ps ih =>
    intro best
    have hstep : best.2 ≤ (if best.2 < r.2 then r else best).2 ∧
        r.2 ≤ (if best.2 < r.2 then r else best).2 := by
      split
      · next h => exact ⟨le_of_lt h, le_refl _⟩
      · next h => exact ⟨le_refl _, le_of_not_lt h⟩
    obtain ⟨ih1, ih2⟩ := ih (if best.2 < r.2 then r else best)
    refine ⟨le_trans hstep.1 ih1, ?_⟩
    intro q hq
    rcases List.mem_cons.mp hq with hq | hq
    · subst hq
      exact le_trans hstep.2 ih1
    · exact ih2 q hq

theorem maxByVal_spec (l : List (String × ℚ)) (q : String × ℚ)
    (h : maxByVal l = some q) : q ∈ l ∧ ∀ r ∈ l, r.2 ≤ q.2 := by
  cases l with
  | nil => exact absurd h (by simp [maxByVal])
  | cons p ps =>
    have hq : q = ps.foldl (fun best q => if best.2 < q.2 then q else best) p := by
      have := h
      unfold maxByVal at this
      exact (Option.some.inj this).symm
    subst hq
    constructor
    · rcases maxByVal_foldl_mem ps p with h1 | h1
      · rw [h1]; exact List.mem_cons_self _ _
      · exact List.mem_cons_of_mem _ h1
    · intro r hr
      obtain ⟨h1, h2⟩ := maxByVal_foldl_le ps p
      rcases List.mem_cons.mp hr with hr | hr
      · subst hr; exact h1
      · exact h2 r hr

/-- C4: in fusion mode with both adapters succeeding, `predict` returns a
label `L` from the union of the two distributions' label sets whose
confidence `C` equals the weighted sum
`w_sensor * P_sensor(L) + w_camera * P_camera(L)` (absent labels counting
as 0, and the weights being the configured ones with the code's defaults
2/5 and 3/5), and `C` is maximal among the fused scores of all labels in
the union. -/
theorem fusion_weighted_argmax (fl : FusionLogic F) (sv : List ℚ) (f : F)
    (sl cl : String) (sc cc : ℚ) (sp cp : List (String × ℚ))
    (hmode : fl.mode = "fusion")
    (hs : fl.sensor_model.predict sv = .ok (sl, sc))
    (hc : fl.camera_model.predict (some f) = .ok (cl, cc))
    (hsp : fl.sensor_model.get_all_probabilities sv = .ok sp)
    (hcp : fl.camera_model.get_all_probabilities (some f) = .ok cp)
    (hne : sp ≠ [] ∨ cp ≠ []) :
    ∃ L C md,
      fl.predict sv (some f) = .ok (L, C, md) ∧
      C = dictGet fl.fusion_weights "sensor" (2/5) * dictGet0 sp L
            + dictGet fl.fusion_weights "camera" (3/5) * dictGet0 cp L ∧
      L ∈ sp.map Prod.fst ++ cp.map Prod.fst ∧
      (∀ lab ∈ sp.map Prod.fst ++ cp.map Prod.fst,
        dictGet fl.fusion_weights "sensor" (2/5) * dictGet0 sp lab
            + dictGet fl.fusion_weights "camera" (3/5) * dictGet0 cp lab ≤ C) ∧
      md.fused_label = some L ∧ md.fused_confidence = some C := by
  have hunion : (sp.map Prod.fst ++ cp.map Prod.fst).dedup ≠ [] := by
    rw [Ne, List.dedup_eq_nil, List.append_eq_nil]
    rcases hne with hne | hne
    · intro h
      exact hne (List.map_eq_nil_iff.mp h.1)
    · intro h
      exact hne (List.map_eq_nil_iff.mp h.2)
  set sw := dictGet fl.fusion_weights "sensor" (2/5) with hsw
  set cw := dictGet fl.fusion_weights "camera" (3/5) with hcw
  set labels := (sp.map Prod.fst ++ cp.map Prod.fst).dedup with hlabels
  set fused := labels.map (fun l => (l, sw * dictGet0 sp l + cw * dictGet0 cp l))
    with hfused
  have hfne : fused ≠ [] := by
    rw [hfused, Ne, List.map_eq_nil_iff]
    exact hunion
  obtain ⟨q, hq⟩ : ∃ q, maxByVal fused = some q := by
    cases hfe : fused with
    | nil => exact absurd hfe hfne
    | cons p ps => exact ⟨_, rfl⟩
  obtain ⟨hqmem, hqmax⟩ := maxByVal_spec fused q hq
  obtain ⟨L0, hL0mem, hL0eq⟩ := List.mem_map.mp hqmem
  have hpredict : fl.predict sv (some f)
      = .ok (q.1, q.2,
          { mode := "fusion", sensor_label := some sl,
            sensor_confidence := some sc, camera_used := some true,
            camera_label := some cl, camera_confidence := some cc,
            fused_label := some q.1, fused_confidence := some q.2,
            weights_sensor := some sw, weights_camera := some cw }) := by
    rw [dispatch_fusion_some fl hmode]
    unfold predict_fusion
    rw [hs]
    simp only []
    rw [hc]
    simp only []
    rw [hsp]
    simp only []
    rw [hcp]
    simp only []
    rw [← hsw, ← hcw, ← hlabels, ← hfused, hq]
  have hq1 : q.1 = L0 := by rw [← hL0eq]
  have hq2 : q.2 = sw * dictGet0 sp q.1 + cw * dictGet0 cp q.1 := by
    rw [← hL0eq]
  refine ⟨q.1, q.2, _, hpredict, hq2, ?_, ?_, rfl, rfl⟩
  · rw [hq1]
    exact List.mem_dedup.mp hL0mem
  · intro lab hlab
    have hmem : (lab, sw * dictGet0 sp lab + cw * dictGet0 cp lab) ∈ fused := by
      rw [hfused]
      exact List.mem_map.mpr ⟨lab, List.mem_dedup.mpr hlab, rfl⟩
    exact hqmax _ hmem

/-- Witness for C4 at the concrete fusion-mode state: the fused scores are
`2/5 * 9/10 = 9/25` for `Correct_posture` plus `3/5 * 1/5 = 3/25`, giving
`12/25`, against `2/5 * 1/10 + 3/5 * 4/5 = 13/25` for `Leaning_forward`,
so `Leaning_forward` wins with confidence `13/25`. -/
theorem fusion_weighted_argmax_witness :
    ∃ L C md,
      (mkFL "fusion" cameraOk).predict sv7 (some ()) = .ok (L, C, md) ∧
      C = dictGet (mkFL "fusion" cameraOk).fusion_weights "sensor" (2/5)
            * dictGet0 [("Correct_posture", 9/10), ("Leaning_forward", 1/10)] L
          + dictGet (mkFL "fusion" cameraOk).fusion_weights "camera" (3/5)
            * dictGet0 [("Leaning_forward", 4/5), ("Correct_posture", 1/5)] L ∧
      L ∈ ([("Correct_posture", (9:ℚ)/10), ("Leaning_forward", 1/10)].map Prod.fst
            ++ [("Leaning_forward", (4:ℚ)/5), ("Correct_posture", 1/5)].map Prod.fst) ∧
      (∀ lab ∈ ([("Correct_posture", (9:ℚ)/10), ("Leaning_forward", 1/10)].map Prod.fst
            ++ [("Leaning_forward", (4:ℚ)/5), ("Correct_posture", 1/5)].map Prod.fst),
        dictGet (mkFL "fusion" cameraOk).fusion_weights "sensor" (2/5)
            * dictGet0 [("Correct_posture", 9/10), ("Leaning_forward", 1/10)] lab
          + dictGet (mkFL "fusion" cameraOk).fusion_weights "camera" (3/5)
            * dictGet0 [("Leaning_forward", 4/5), ("Correct_posture", 1/5)] lab ≤ C) ∧
      md.fused_label = some L ∧ md.fused_confidence = some C :=
  fusion_weighted_argmax (mkFL "fusion" cameraOk) sv7 () "Correct_posture"
    "Leaning_forward" (9/10) (4/5)
    [("Correct_posture", 9/10), ("Leaning_forward", 1/10)]
    [("Leaning_forward", 4/5), ("Correct_posture", 1/5)]
    rfl rfl rfl rfl rfl (Or.inl (by decide))

theorem predict_sensor_only_ok (fl : FusionLogic F) (sv : List ℚ)
    (l : String) (c : ℚ)
    (hs : fl.sensor_model.predict sv = .ok (l, c)) :
    predict_sensor_only fl sv
      = .ok (l, c,
          { mode := "sensor_only", sensor_confidence := some c,
            camera_used := some false }) := by
  unfold predict_sensor_only
  rw [hs]

theorem predict_sensor_only_err (fl : FusionLogic F) (sv : List ℚ) (e : String)
    (hs : fl.sensor_model.predict sv = .error e) :
    predict_sensor_only fl sv = .error e := by
  unfold predict_sensor_only
  rw [hs]

theorem predict_auto_err (fl : FusionLogic F) (sv : List ℚ) (frame : Option F)
    (e : String) (hs : fl.sensor_model.predict sv = .error e) :
    predict_auto fl sv frame = .error e := by
  unfold predict_auto
  rw [hs]

theorem predict_fusion_err (fl : FusionLogic F) (sv : List ℚ)
    (frame : Option F) (e : String)
    (hs : fl.sensor_model.predict sv = .error e) :
    predict_fusion fl sv frame = .error e := by
  unfold predict_fusion
  rw [hs]

theorem predict_auto_low_camok (fl : FusionLogic F) (sv : List ℚ) (f : F)
    (l cl : String) (c cc : ℚ)
    (hs : fl.sensor_model.predict sv = .ok (l, c))
    (hth : ¬ fl.auto_threshold ≤ c)
    (hc : fl.camera_model.predict (some f) = .ok (cl, cc)) :
    predict_auto fl sv (some f)
      = .ok (cl, cc,
          { mode := "auto", sensor_confidence := some c,
            sensor_label := some l, camera_used := some true,
            camera_confidence := some cc, camera_label := some cl }) := by
  unfold predict_auto
  rw [hs]
  simp [hth, hc]

theorem predict_auto_ok (fl : FusionLogic F) (sv : List ℚ) (frame : Option F)
    (l : String) (c : ℚ)
    (hs : fl.sensor_model.predict sv = .ok (l, c)) :
    ∃ r, predict_auto fl sv frame = .ok r := by
  by_cases hth : fl.auto_threshold ≤ c
  · exact ⟨_, predict_auto_high fl sv frame l c hs hth⟩
  · cases frame with
    | none => exact ⟨_, predict_auto_low_noframe fl sv l c hs hth⟩
    | some f =>
      cases hc : fl.camera_model.predict (some f) with
      | ok p =>
        obtain ⟨cl, cc⟩ := p
        exact ⟨_, predict_auto_low_camok fl sv f l cl c cc hs hth hc⟩
      | error e =>
        exact ⟨_, predict_auto_low_camfail fl sv f l c e hs hth hc⟩

theorem predict_fusion_camfail (fl : FusionLogic F) (sv : List ℚ)
    (frame : Option F) (l : String) (c : ℚ) (e : String)
    (hs : fl.sensor_model.predict sv = .ok (l, c))
    (hc : fl.camera_model.predict frame = .error e) :
    predict_fusion fl sv frame
      = .ok (l, c,
          { mode := "fusion", sensor_label := some l,
            sensor_confidence := some c, camera_used := some false,
            camera_error := some e }) := by
  unfold predict_fusion
  rw [hs]
  simp only []
  rw [hc]

/-- C5 counterexample: the sensor adapter succeeds on `sv7`, yet
`predict` surfaces a per-sample camera failure as a hard error in two
paths: `camera_only` mode with a frame re-raises a camera prediction
failure (`predict_camera_only`, `src/models/fusion_logic.py` lines
102-104), and `fusion` mode re-raises a failure of the camera
`get_all_probabilities` call, which lies outside the inner `try`
(lines 204, 233-235). -/
theorem fallback_policy_counterexample :
    sensorOk.predict sv7 = .ok ("Correct_posture", 9/10) ∧
    (mkFL "camera_only" cameraFail).predict sv7 (some ())
      = .error "No person detected in frame" ∧
    (mkFL "fusion" cameraProbsFail).predict sv7 (some ())
      = .error "No person detected in frame" :=
  ⟨rfl, rfl, rfl⟩

/-- C5 amended: whenever the sensor adapter succeeds, `predict` produces
a decision in `sensor_only` and `auto` modes, in any unknown mode, and
whenever no frame is supplied; a camera prediction failure in `auto` or
`fusion` mode is recovered by falling back to the sensor result with the
failure recorded in the metadata (`camera_used = false`, `camera_error`);
and a sensor-adapter failure is surfaced to the caller in every path that
consults the sensor (all modes except `camera_only` with a frame).
Exception forced by the counterexample: in `camera_only` mode with a
frame a camera prediction failure propagates, and in `fusion` mode a
failure of either distribution call propagates. -/
theorem fallback_policy_amended (fl : FusionLogic F) (sv : List ℚ)
    (frame : Option F) :
    (∀ l c, fl.sensor_model.predict sv = .ok (l, c) →
      (fl.mode = "sensor_only" ∨ fl.mode = "auto" ∨ frame = none ∨
        (fl.mode ≠ "sensor_only" ∧ fl.mode ≠ "camera_only" ∧
         fl.mode ≠ "auto" ∧ fl.mode ≠ "fusion")) →
      ∃ r, fl.predict sv frame = .ok r) ∧
    (∀ l c f e, fl.sensor_model.predict sv = .ok (l, c) →
      fl.mode = "auto" → frame = some f → ¬ fl.auto_threshold ≤ c →
      fl.camera_model.predict frame = .error e →
      fl.predict sv frame
        = .ok (l, c,
            { mode := "auto", sensor_confidence := some c,
              sensor_label := some l, camera_used := some false,
              camera_error := some e })) ∧
    (∀ l c f e, fl.sensor_model.predict sv = .ok (l, c) →
      fl.mode = "fusion" → frame = some f →
      fl.camera_model.predict frame = .error e →
      fl.predict sv frame
        = .ok (l, c,
            { mode := "fusion", sensor_label := some l,
              sensor_confidence := some c, camera_used := some false,
              camera_error := some e })) ∧
    (∀ e, fl.sensor_model.predict sv = .error e →
      ¬ (fl.mode = "camera_only" ∧ frame ≠ none) →
      fl.predict sv frame = .error e) := by
  refine ⟨?_, ?_, ?_, ?_⟩
  · intro l c hs hcase
    by_cases h1 : fl.mode = "sensor_only"
    · exact ⟨_, by
        rw [dispatch_sensor_only fl h1, predict_sensor_only_ok fl sv l c hs]⟩
    · by_cases h3 : fl.mode = "auto"
      · rw [dispatch_auto fl h3]
        exact predict_auto_ok fl sv frame l c hs
      · by_cases h2 : fl.mode = "camera_only"
        · have hf : frame = none := by
            rcases hcase with h | h | h | ⟨-, u2, -, -⟩
            · exact absurd h h1
            · exact absurd h h3
            · exact h
            · exact absurd h2 u2
          subst hf
          exact ⟨_, by
            rw [dispatch_camera_only_none fl h2,
              predict_sensor_only_ok fl sv l c hs]⟩
        · by_cases h4 : fl.mode = "fusion"
          · have hf : frame = none := by
              rcases hcase with h | h | h | ⟨-, -, -, u4⟩
              · exact absurd h h1
              · exact absurd h h3
              · exact h
              · exact absurd h4 u4
            subst hf
            exact ⟨_, by
              rw [dispatch_fusion_none fl h4,
                predict_sensor_only_ok fl sv l c hs]⟩
          · exact ⟨_, by
              rw [dispatch_unknown fl h1 h2 h3 h4 sv frame,
                predict_sensor_only_ok fl sv l c hs]⟩
  · intro l c f e hs hm hf hth hc
    subst hf
    rw [dispatch_auto fl hm]
    exact predict_auto_low_camfail fl sv f l c e hs hth hc
  · intro l c f e hs hm hf hc
    subst hf
    rw [dispatch_fusion_some fl hm]
    exact predict_fusion_camfail fl sv (some f) l c e hs hc
  · intro e hs hnc
    by_cases h1 : fl.mode = "sensor_only"
    · rw [dispatch_sensor_only fl h1, predict_sensor_only_err fl sv e hs]
    · by_cases h3 : fl.mode = "auto"
      · rw [dispatch_auto fl h3, predict_auto_err fl sv frame e hs]
      · by_cases h2 : fl.mode = "camera_only"
        · have hf : frame = none := by
            by_contra hne
            exact hnc ⟨h2, hne⟩
          subst hf
          rw [dispatch_camera_only_none fl h2,
            predict_sensor_only_err fl sv e hs]
        · by_cases h4 : fl.mode = "fusion"
          · cases frame with
            | none =>
              rw [dispatch_fusion_none fl h4,
                predict_sensor_only_err fl sv e hs]
            | some f =>
              rw [dispatch_fusion_some fl h4,
                predict_fusion_err fl sv (some f) e hs]
          · rw [dispatch_unknown fl h1 h2 h3 h4 sv frame,
              predict_sensor_only_err fl sv e hs]

/-- Witness for the amended C5: the fusion-mode camera-prediction failure
is recovered with the error recorded in the metadata. -/
theorem fallback_policy_amended_witness :
    (mkFL "fusion" cameraFail).predict sv7 (some ())
      = .ok ("Correct_posture", 9/10,
          { mode := "fusion", sensor_label := some "Correct_posture",
            sensor_confidence := some (9/10), camera_used := some false,
            camera_error := some "No person detected in frame" }) :=
  (fallback_policy_amended (mkFL "fusion" cameraFail) sv7 (some ())).2.2.1
    "Correct_posture" (9/10) () "No person detected in frame" rfl rfl rfl rfl

/-- C8: in `camera_only` mode a missing frame makes `predict` return
exactly the sensor-only result, whose metadata records the fallback
(`mode = "sensor_only"`, `camera_used = false`), distinguishable from a
genuine camera classification, whose metadata has `mode = "camera_only"`
and `camera_used = true`. -/
theorem camera_only_no_frame_fallback (fl : FusionLogic F) (sv : List ℚ)
    (l : String) (c : ℚ)
    (hmode : fl.mode = "camera_only")
    (hs : fl.sensor_model.predict sv = .ok (l, c)) :
    fl.predict sv none = predict_sensor_only fl sv ∧
    fl.predict sv none
      = .ok (l, c,
          { mode := "sensor_only", sensor_confidence := some c,
            camera_used := some false }) ∧
    (∀ (f : F) (cl : String) (cc : ℚ),
      fl.camera_model.predict (some f) = .ok (cl, cc) →
      fl.predict sv (some f)
        = .ok (cl, cc,
            { mode := "camera_only", camera_confidence := some cc,
              camera_used := some true })) := by
  refine ⟨dispatch_camera_only_none fl hmode sv, ?_, ?_⟩
  · rw [dispatch_camera_only_none fl hmode, predict_sensor_only_ok fl sv l c hs]
  · intro f cl cc hc
    rw [dispatch_camera_only_some fl hmode]
    unfold predict_camera_only
    simp only []
    rw [hc]

/-- Witness for C8 at the concrete camera-only state with no frame. -/
theorem camera_only_no_frame_fallback_witness :
    (mkFL "camera_only" cameraOk).predict sv7 none
      = .ok ("Correct_posture", 9/10,
          { mode := "sensor_only", sensor_confidence := some (9/10),
            camera_used := some false }) :=
  (camera_only_no_frame_fallback (mkFL "camera_only" cameraOk) sv7
    "Correct_posture" (9/10) rfl rfl).2.1

/-- C10: for every configured mode string outside
`{sensor_only, camera_only, auto, fusion}`, `predict` returns exactly the
sensor-only result, ignoring any supplied frame, and succeeds whenever the
sensor adapter succeeds. -/
theorem unknown_mode_sensor_fallback (fl : FusionLogic F) (sv : List ℚ)
    (frame : Option F)
    (h1 : fl.mode ≠ "sensor_only") (h2 : fl.mode ≠ "camera_only")
    (h3 : fl.mode ≠ "auto") (h4 : fl.mode ≠ "fusion") :
    fl.predict sv frame = predict_sensor_only fl sv ∧
    fl.predict sv frame = fl.predict sv none ∧
    (∀ l c, fl.sensor_model.predict sv = .ok (l, c) →
      fl.predict sv frame
        = .ok (l, c,
            { mode := "sensor_only", sensor_confidence := some c,
              camera_used := some false })) := by
  refine ⟨dispatch_unknown fl h1 h2 h3 h4 sv frame, ?_, ?_⟩
  · rw [dispatch_unknown fl h1 h2 h3 h4 sv frame,
      dispatch_unknown fl h1 h2 h3 h4 sv none]
  · intro l c hs
    rw [dispatch_unknown fl h1 h2 h3 h4 sv frame,
      predict_sensor_only_ok fl sv l c hs]

/-- Witness for C10 at the unknown mode string `"banana"`. -/
theorem unknown_mode_sensor_fallback_witness :
    (mkFL "banana" cameraOk).predict sv7 (some ())
      = .ok ("Correct_posture", 9/10,
          { mode := "sensor_only", sensor_confidence := some (9/10),
            camera_used := some false }) :=
  (unknown_mode_sensor_fallback (mkFL "banana" cameraOk) sv7 (some ())
    (by decide) (by decide) (by decide) (by decide)).2.2
    "Correct_posture" (9/10) rfl

/-! ## Frame source: `src/utils/camera_manager.py`

`Cap` is the `cv2.VideoCapture` handle type and `F` the frame type; the
device layer (`cv2.VideoCapture(index)` and `.isOpened()`) is a parameter
`CamEnv`.  The shared-slot reads and writes are serialized by `self.lock`
in the source, so the observable history is a sequence of events. -/

/-- The `cv2` operations the camera manager uses: opening a capture
device for an index, and querying whether a handle is opened. -/
structure CamEnv (Cap : Type) where
  openCam : Nat → Cap
  isOpenedCap : Cap → Bool

/-- The state of a `CameraManager` instance,
`src/utils/camera_manager.py` lines 24-49. -/
structure CamState (Cap F : Type) where
  camera_index : Nat
  width : Nat
  height : Nat
  cap : Option Cap
  is_opened : Bool
  current_frame : Option F
  inference_mode : Bool
  running : Bool

/-- `CameraManager.__init__` plus `_init_camera`,
`src/utils/camera_manager.py` lines 24-87: when the device does not open,
the manager logs, sets `is_opened = False` and returns without raising
and without starting the capture thread (`running` stays `False`); on
success it starts the capture thread. -/
def init_camera (env : CamEnv Cap) (F : Type) (idx w h : Nat) :
    CamState Cap F :=
  if env.isOpenedCap (env.openCam idx) then
    { camera_index := idx, width := w, height := h,
      cap := some (env.openCam idx), is_opened := true,
      current_frame := none, inference_mode := false, running := true }
  else
    { camera_index := idx, width := w, height := h,
      cap := some (env.openCam idx), is_opened := false,
      current_frame := none, inference_mode := false, running := false }

/-- One observable event on the camera manager: an iteration of the
background `_capture_loop` (with the frame the device read produced, if
any), a `capture_for_inference` call, or a `get_frame` call. -/
inductive CamEvent (F : Type) where
  | loopIter (readResult : Option F)
  | captureForInference
  | getFrame

/-- One iteration of the `_capture_loop` body,
`src/utils/camera_manager.py` lines 89-119: it runs only while
`self.running`; with an unopened device it attempts `_reconnect`
(lines 121-137), re-opening the device; on a successful read it replaces
the shared `current_frame` slot; on a failed read it leaves the slot
unchanged. -/
def capture_loop_iter (env : CamEnv Cap) (st : CamState Cap F)
    (readResult : Option F) : CamState Cap F :=
  if st.running then
    if (match st.cap with | some c => env.isOpenedCap c | none => false) then
      match readResult with
      | some f => { st with current_frame := some f }
      | none => st
    else { st with cap := some (env.openCam st.camera_index) }
  else st

/-- `capture_for_inference`, `src/utils/camera_manager.py` lines 151-184:
returns a copy of the current frame slot, or `none` when no frame is
held (it never raises); the `inference_mode` flag is set and then reset
around the read, so it ends `false`. -/
def capture_for_inference (st : CamState Cap F) :
    Option F × CamState Cap F :=
  (st.current_frame, { st with inference_mode := false })

/-- The state transformer for one event. -/
def camStep (env : CamEnv Cap) (st : CamState Cap F) :
    CamEvent F → CamState Cap F
  | .loopIter r => capture_loop_iter env st r
  | .captureForInference => (capture_for_inference st).2
  | .getFrame => st

/-- `is_available`, `src/utils/camera_manager.py` lines 215-222:
`is_opened and cap is not None and cap.isOpened()`. -/
def is_available (env : CamEnv Cap) (st : CamState Cap F) : Bool :=
  st.is_opened &&
    (match st.cap with | some c => env.isOpenedCap c | none => false)

/-- The dict returned by `get_status`,
`src/utils/camera_manager.py` lines 224-239. -/
structure CamStatus where
  is_opened : Bool
  is_available : Bool
  camera_index : Nat
  width : Nat
  height : Nat
  inference_mode : Bool
  has_frame : Bool
  deriving DecidableEq

/-- `get_status`, `src/utils/camera_manager.py` lines 224-239. -/
def get_status (env : CamEnv Cap) (st : CamState Cap F) : CamStatus :=
  { is_opened := st.is_opened, is_available := is_available env st,
    camera_index := st.camera_index, width := st.width,
    height := st.height, inference_mode := st.inference_mode,
    has_frame := st.current_frame.isSome }

/-- The degraded-state invariant after a failed device open. -/
def CamDegraded (st : CamState Cap F) : Prop :=
  st.is_opened = false ∧ st.running = false ∧ st.current_frame = none

theorem camStep_degraded (env : CamEnv Cap) (st : CamState Cap F)
    (e : CamEvent F) (h : CamDegraded st) :
    CamDegraded (camStep env st e) := by
  obtain ⟨h1, h2, h3⟩ := h
  cases e with
  | loopIter r =>
    show CamDegraded (capture_loop_iter env st r)
    unfold capture_loop_iter
    rw [h2]
    simp only [Bool.false_eq_true, if_false]
    exact ⟨h1, h2, h3⟩
  | captureForInference => exact ⟨h1, h2, h3⟩
  | getFrame => exact ⟨h1, h2, h3⟩

theorem camSteps_degraded (env : CamEnv Cap) (evs : List (CamEvent F)) :
    ∀ st : CamState Cap F, CamDegraded st →
      CamDegraded (evs.foldl (camStep env) st) := by
  induction evs with
  | nil => intro st h; exact h
  | cons e evs ih =>
    intro st h
    exact ih _ (camStep_degraded env st e h)

/-- C7: when opening the capture device fails, construction still
completes (the embedding of `_init_camera` is a total function into a
state, mirroring the caught exception in the source), `get_status`
reports `is_available = false`, and after any sequence of later events
(background loop iterations, inference captures, stream reads)
`capture_for_inference` still returns `none` and availability stays
`false`. -/
theorem camera_open_failure_degraded (env : CamEnv Cap) (F : Type)
    (idx w h : Nat)
    (hfail : env.isOpenedCap (env.openCam idx) = false) :
    (get_status env (init_camera env F idx w h)).is_available = false ∧
    (init_camera env F idx w h).is_opened = false ∧
    ∀ evs : List (CamEvent F),
      (capture_for_inference
        (evs.foldl (camStep env) (init_camera env F idx w h))).1 = none ∧
      (get_status env
        (evs.foldl (camStep env) (init_camera env F idx w h))).is_available
        = false := by
  have hinit : CamDegraded (init_camera env F idx w h) := by
    unfold init_camera
    rw [hfail]
    exact ⟨rfl, rfl, rfl⟩
  refine ⟨?_, hinit.1, ?_⟩
  · show is_available env (init_camera env F idx w h) = false
    unfold is_available
    rw [hinit.1]
    rfl
  · intro evs
    have hst := camSteps_degraded env evs _ hinit
    constructor
    · exact hst.2.2
    · show is_available env (evs.foldl (camStep env) _) = false
      unfold is_available
      rw [hst.1]
      rfl

/-- Witness for C7 over trivial capture handles and frames, with a device
that never opens and a later loop iteration and inference capture. -/
theorem camera_open_failure_degraded_witness :
    (capture_for_inference
      (([CamEvent.loopIter (some ()), CamEvent.captureForInference,
          CamEvent.getFrame]).foldl
        (camStep (⟨fun _ => (), fun _ => false⟩ : CamEnv Unit))
        (init_camera (⟨fun _ => (), fun _ => false⟩ : CamEnv Unit)
          Unit 0 1280 720))).1 = none :=
  ((camera_open_failure_degraded (⟨fun _ => (), fun _ => false⟩ : CamEnv Unit)
      Unit 0 1280 720 rfl).2.2
    [CamEvent.loopIter (some ()), CamEvent.captureForInference,
      CamEvent.getFrame]).1

/-! ## Camera feature extraction: `src/models/camera_model.py`

A keypoint set is a function from COCO indices to 2-D points over `ℚ`;
`np.sqrt` and `np.degrees ∘ np.arccos` are opaque numeric kernels and
appear as function parameters `s` and `acd`. -/

/-- `RELEVANT_KEYPOINTS`, `src/models/camera_model.py` lines 19-27: the
COCO indices whose raw coordinates are fed to the classifier — nose, two
eyes, two ears, two shoulders, two hips, two knees, two ankles, 13 points
in all. -/
def RELEVANT_KEYPOINTS : List Nat :=
  [0, 1, 2, 3, 4, 5, 6, 11, 12, 13, 14, 15, 16]

/-- The additive epsilon `1e-6` used by every division in
`_calculate_angle` and `_extract_derived_features`. -/
def eps : ℚ := 1 / 1000000

/-- `np.clip(x, lo, hi)`. -/
def clip (x lo hi : ℚ) : ℚ := max lo (min x hi)

/-- `_calculate_distance`, `src/models/camera_model.py` lines 91-93:
`np.sqrt((p1x-p2x)**2 + (p1y-p2y)**2)`; `s` stands for `np.sqrt`. -/
def calculate_distance (s : ℚ → ℚ) (p1 p2 : ℚ × ℚ) : ℚ :=
  s ((p1.1 - p2.1) ^ 2 + (p1.2 - p2.2) ^ 2)

/-- `np.linalg.norm` of a 2-vector as used in `_calculate_angle`. -/
def norm2 (s : ℚ → ℚ) (v : ℚ × ℚ) : ℚ :=
  s (v.1 ^ 2 + v.2 ^ 2)

/-- The denominator of the cosine in `_calculate_angle`, line 87:
`np.linalg.norm(v1) * np.linalg.norm(v2) + 1e-6` for the two joint
vectors at the middle point `p2`. -/
def angleDenomAt (s : ℚ → ℚ) (p1 p2 p3 : ℚ × ℚ) : ℚ :=
  norm2 s (p1.1 - p2.1, p1.2 - p2.2) * norm2 s (p3.1 - p2.1, p3.2 - p2.2)
    + eps

/-- `_calculate_angle`, `src/models/camera_model.py` lines 82-89; `acd`
stands for `np.degrees ∘ np.arccos` applied to the clipped cosine. -/
def calculate_angle (s acd : ℚ → ℚ) (p1 p2 p3 : ℚ × ℚ) : ℚ :=
  acd (clip (((p1.1 - p2.1) * (p3.1 - p2.1) + (p1.2 - p2.2) * (p3.2 - p2.2))
      / angleDenomAt s p1 p2 p3) (-1) 1)

/-- `shoulder_center`, lines 109-110: midpoint of keypoints 5 and 6. -/
def shoulder_center (kp : Nat → ℚ × ℚ) : ℚ × ℚ :=
  (((kp 5).1 + (kp 6).1) / 2, ((kp 5).2 + (kp 6).2) / 2)

/-- `hip_center`, lines 111-112: midpoint of keypoints 11 and 12. -/
def hip_center (kp : Nat → ℚ × ℚ) : ℚ × ℚ :=
  (((kp 11).1 + (kp 12).1) / 2, ((kp 11).2 + (kp 12).2) / 2)

/-- `torso_length`, line 122: shoulder-center-to-hip-center distance plus
the epsilon; the denominator of all five normalized distances. -/
def torso_length (s : ℚ → ℚ) (kp : Nat → ℚ × ℚ) : ℚ :=
  calculate_distance s (shoulder_center kp) (hip_center kp) + eps

/-- `features['shoulder_width']`, line 125. -/
def shoulder_width (s : ℚ → ℚ) (kp : Nat → ℚ × ℚ) : ℚ :=
  calculate_distance s (kp 5) (kp 6) / torso_length s kp

/-- `features['hip_width']`, line 126. -/
def hip_width (s : ℚ → ℚ) (kp : Nat → ℚ × ℚ) : ℚ :=
  calculate_distance s (kp 11) (kp 12) / torso_length s kp

/-- `features['knee_distance']`, line 139. -/
def knee_distance (s : ℚ → ℚ) (kp : Nat → ℚ × ℚ) : ℚ :=
  calculate_distance s (kp 13) (kp 14) / torso_length s kp

/-- `features['ankle_distance']`, line 140. -/
def ankle_distance (s : ℚ → ℚ) (kp : Nat → ℚ × ℚ) : ℚ :=
  calculate_distance s (kp 15) (kp 16) / torso_length s kp

/-- `_extract_derived_features`, `src/models/camera_model.py`
lines 95-146: the `features` dict in insertion order (Python dicts
preserve it, and `_extract_features` consumes `.values()` in that
order). -/
def extract_derived_features (s acd : ℚ → ℚ) (kp : Nat → ℚ × ℚ) :
    List (String × ℚ) :=
  [("back_angle",
      calculate_angle s acd (kp 0) (shoulder_center kp) (hip_center kp)),
   ("left_knee_angle", calculate_angle s acd (kp 11) (kp 13) (kp 15)),
   ("right_knee_angle", calculate_angle s acd (kp 12) (kp 14) (kp 16)),
   ("left_hip_angle", calculate_angle s acd (kp 5) (kp 11) (kp 13)),
   ("right_hip_angle", calculate_angle s acd (kp 6) (kp 12) (kp 14)),
   ("nose_to_shoulder_dist",
      calculate_distance s (kp 0) (shoulder_center kp) / torso_length s kp),
   ("shoulder_width", shoulder_width s kp),
   ("hip_width", hip_width s kp),
   ("shoulder_y_diff", |(kp 5).2 - (kp 6).2|),
   ("shoulder_x_diff", |(kp 5).1 - (kp 6).1|),
   ("hip_y_diff", |(kp 11).2 - (kp 12).2|),
   ("hip_x_diff", |(kp 11).1 - (kp 12).1|),
   ("nose_shoulder_y_diff", (kp 0).2 - (shoulder_center kp).2),
   ("shoulder_hip_y_diff", (shoulder_center kp).2 - (hip_center kp).2),
   ("knee_distance", knee_distance s kp),
   ("ankle_distance", ankle_distance s kp),
   ("knee_ankle_ratio", knee_distance s kp / (ankle_distance s kp + eps)),
   ("shoulder_hip_ratio", shoulder_width s kp / (hip_width s kp + eps))]

/-- `_extract_features`, `src/models/camera_model.py` lines 148-168: the
raw coordinates of the `RELEVANT_KEYPOINTS` subset followed by the
derived feature values, in order. -/
def extract_features (s acd : ℚ → ℚ) (kp : Nat → ℚ × ℚ) : List ℚ :=
  (RELEVANT_KEYPOINTS.flatMap (fun i => [(kp i).1, (kp i).2]))
    ++ (extract_derived_features s acd kp).map Prod.snd

/-- Every denominator of a division performed during derived-feature
extraction: the five angle-cosine denominators, the torso length (the
denominator of the five normalized distances), and the two dimensionless
ratio denominators. -/
def derivedDenominators (s : ℚ → ℚ) (kp : Nat → ℚ × ℚ) : List ℚ :=
  [angleDenomAt s (kp 0) (shoulder_center kp) (hip_center kp),
   angleDenomAt s (kp 11) (kp 13) (kp 15),
   angleDenomAt s (kp 12) (kp 14) (kp 16),
   angleDenomAt s (kp 5) (kp 11) (kp 13),
   angleDenomAt s (kp 6) (kp 12) (kp 14),
   torso_length s kp,
   ankle_distance s kp + eps,
   hip_width s kp + eps]

/-- C9 counterexample: `RELEVANT_KEYPOINTS` has 13 entries, not 12, so
the raw-coordinate prefix of the feature vector has 26 entries; the claim
of a "fixed 12-point anatomical subset" is false of the code. -/
theorem keypoint_subset_counterexample :
    RELEVANT_KEYPOINTS.length = 13 ∧
    ¬ RELEVANT_KEYPOINTS.length = 12 ∧
    (extract_features (fun x => x) (fun x => x)
        (fun i => ((i : ℚ), 0))).length = 13 * 2 + 18 := by
  refine ⟨rfl, by decide, ?_⟩
  rfl

/-- C9 amended: the classifier input vector is the concatenation of the
raw coordinates of the fixed 13-point anatomical subset
`RELEVANT_KEYPOINTS` with the derived features in their fixed dict order,
and every division in the derived-feature computation has a denominator
of the form `x + 1e-6` with `x ≥ 0` (given that the square-root kernel is
nonnegative on nonnegative inputs), hence strictly positive: no division
by zero can occur on degenerate poses. -/
theorem feature_vector_layout (s acd : ℚ → ℚ) (kp : Nat → ℚ × ℚ)
    (hs : ∀ x, 0 ≤ x → 0 ≤ s x) :
    extract_features s acd kp
      = (RELEVANT_KEYPOINTS.flatMap (fun i => [(kp i).1, (kp i).2]))
        ++ (extract_derived_features s acd kp).map Prod.snd ∧
    RELEVANT_KEYPOINTS.length = 13 ∧
    (extract_derived_features s acd kp).map Prod.fst
      = ["back_angle", "left_knee_angle", "right_knee_angle",
         "left_hip_angle", "right_hip_angle", "nose_to_shoulder_dist",
         "shoulder_width", "hip_width", "shoulder_y_diff",
         "shoulder_x_diff", "hip_y_diff", "hip_x_diff",
         "nose_shoulder_y_diff", "shoulder_hip_y_diff", "knee_distance",
         "ankle_distance", "knee_ankle_ratio", "shoulder_hip_ratio"] ∧
    (∀ d ∈ derivedDenominators s kp, 0 < d) := by
  have heps : (0 : ℚ) < eps := by norm_num [eps]
  have hdist : ∀ p q : ℚ × ℚ, 0 ≤ calculate_distance s p q := by
    intro p q
    exact hs _ (by positivity)
  have hnorm : ∀ v : ℚ × ℚ, 0 ≤ norm2 s v := by
    intro v
    exact hs _ (by positivity)
  have htorso : 0 < torso_length s kp :=
    add_pos_of_nonneg_of_pos (hdist _ _) heps
  have hangle : ∀ p1 p2 p3 : ℚ × ℚ, 0 < angleDenomAt s p1 p2 p3 := by
    intro p1 p2 p3
    exact add_pos_of_nonneg_of_pos (mul_nonneg (hnorm _) (hnorm _)) heps
  refine ⟨rfl, rfl, rfl, ?_⟩
  intro d hd
  simp only [derivedDenominators, List.mem_cons, List.not_mem_nil,
    or_false] at hd
  rcases hd with rfl | rfl | rfl | rfl | rfl | rfl | rfl | rfl
  · exact hangle _ _ _
  · exact hangle _ _ _
  · exact hangle _ _ _
  · exact hangle _ _ _
  · exact hangle _ _ _
  · exact htorso
  · exact add_pos_of_nonneg_of_pos
      (div_nonneg (hdist _ _) (le_of_lt htorso)) heps
  · exact add_pos_of_nonneg_of_pos
      (div_nonneg (hdist _ _) (le_of_lt htorso)) heps

/-- Witness for the amended C9 with `np.sqrt` instantiated by the
identity (nonnegative on nonnegative inputs) on a concrete keypoint
set. -/
theorem feature_vector_layout_witness :
    extract_features (fun x => x) (fun x => x) (fun i => ((i : ℚ), 0))
      = (RELEVANT_KEYPOINTS.flatMap (fun i => [((i : ℚ), (0 : ℚ)).1,
          ((i : ℚ), (0 : ℚ)).2]))
        ++ (extract_derived_features (fun x => x) (fun x => x)
            (fun i => ((i : ℚ), 0))).map Prod.snd ∧
    RELEVANT_KEYPOINTS.length = 13 :=
  ⟨(feature_vector_layout (fun x => x) (fun x => x) (fun i => ((i : ℚ), 0))
      (fun _ hx => hx)).1,
   (feature_vector_layout (fun x => x) (fun x => x) (fun i => ((i : ℚ), 0))
      (fun _ hx => hx)).2.1⟩

end SmartChair
